import Mathlib

/-!
# Verification of `weather.py`

A shallow embedding of the weather-statistics module `src/weather.py` and
proofs of the specification claims about it.

Modelling conventions:
* Python numbers (ints and floats) are embedded as exact rationals `ℚ`.
  Every numeric value appearing in the claims is an integer, a decimal with
  one fractional digit, or a small exact quotient, so double-precision
  rounding never diverges from exact rational arithmetic on them; `float(x)`
  coercions are therefore the identity.
* A Python function that can raise an exception is embedded as an
  `Option`-valued function; `none` plays the role of the raised exception
  (`ValueError` from `min`/`max` on an empty list, `ZeroDivisionError`,
  `datetime.fromisoformat` parse errors, `IndexError`).  `find_min` /
  `find_max` return the empty tuple `()` on empty input; that defined empty
  result is likewise embedded as `none`.
* Python strings are Lean `String`s (sequences of code points, matching
  Python's `str`); the slice `s[:19]` is `List.take 19` on the code points.
-/

set_option allowUnsafeReducibility true in
attribute [semireducible] Rat.add Rat.mul Rat.inv Rat.sub

set_option maxRecDepth 8192

namespace Weather

/-- Models Python's builtin `min` over a list (`ValueError`, i.e. `none`,
on an empty list); `min(l)` scans left keeping the smaller value. -/
def pyMin : List ℚ → Option ℚ
  | [] => none
  | a :: t => some (t.foldl min a)

/-- Models Python's builtin `max` over a list (`ValueError`, i.e. `none`,
on an empty list). -/
def pyMax : List ℚ → Option ℚ
  | [] => none
  | a :: t => some (t.foldl max a)

/-- Models Python's `list.index(x)`: the index of the first element equal
to `x` (the source only calls it when `x` is present; on an absent element
Python raises and this model returns the length). -/
def pyIndex : List ℚ → ℚ → ℕ
  | [], _ => 0
  | a :: t, x => if a = x then 0 else pyIndex t x + 1

/-- `find_min` from `weather.py` (lines 72–87): returns `()` (here `none`)
on an empty list — the `if not weather_data` guard — otherwise the minimum
value (as float) together with the index of its *last* occurrence, computed
as `len(v) - 1 - v[::-1].index(min_value)`. -/
def find_min (weather_data : List ℚ) : Option (ℚ × ℕ) :=
  match pyMin weather_data with
  | none => none
  | some min_value =>
      some (min_value, weather_data.length - 1 - pyIndex weather_data.reverse min_value)

/-- `find_max` from `weather.py` (lines 90–103): symmetric to `find_min`,
maximum value (coerced to float on return) and last-occurrence index. -/
def find_max (weather_data : List ℚ) : Option (ℚ × ℕ) :=
  match pyMax weather_data with
  | none => none
  | some max_value =>
      some (max_value, weather_data.length - 1 - pyIndex weather_data.reverse max_value)

/-- `calculate_mean` from `weather.py` (lines 42–51): `sum / len`, with
`ZeroDivisionError` (`none`) on an empty list. -/
def calculate_mean (weather_data : List ℚ) : Option ℚ :=
  if weather_data.length = 0 then none
  else some (weather_data.sum / (weather_data.length : ℚ))

/-- Floor of a rational, computed on the normalized numerator/denominator
(Lean's `Int` division is Euclidean, which is floor division for the
positive denominator). -/
def ratFloor (q : ℚ) : ℤ := q.num / (q.den : ℤ)

/-- Round-half-to-even to an integer, as Python's builtin `round` does on
values exactly representable. -/
def roundHalfToEven (q : ℚ) : ℤ :=
  let f := ratFloor q
  let r := q - (f : ℚ)
  if r < 1 / 2 then f
  else if 1 / 2 < r then f + 1
  else if f % 2 = 0 then f else f + 1

/-- Python's `round(x, 1)`: round to one decimal digit (half to even). -/
def round1 (q : ℚ) : ℚ := (roundHalfToEven (q * 10) : ℚ) / 10

/-- `convert_f_to_c` from `weather.py` (lines 31–39):
`round((float(t) - 32) * 5.0/9.0, 1)`. -/
def convert_f_to_c (temp_in_fahrenheit : ℚ) : ℚ :=
  round1 ((temp_in_fahrenheit - 32) * 5 / 9)

/-! ## String rendering of numbers -/

/-- A decimal digit character (`d` is only ever called with `d < 10`). -/
def digitChar (d : ℕ) : Char :=
  match d with
  | 0 => '0' | 1 => '1' | 2 => '2' | 3 => '3' | 4 => '4'
  | 5 => '5' | 6 => '6' | 7 => '7' | 8 => '8' | 9 => '9'
  | _ => '*'

/-- Decimal digits of `n`, most significant first, with explicit fuel so
that the recursion is structural (any `fuel ≥ n.log10 + 1` is enough; the
callers pass `n + 1`). -/
def natDigitsFuel : ℕ → ℕ → List Char
  | 0, _ => []
  | fuel + 1, n =>
      if n < 10 then [digitChar n]
      else natDigitsFuel fuel (n / 10) ++ [digitChar (n % 10)]

/-- Python's `str` of a non-negative integer. -/
def natToString (n : ℕ) : String := String.mk (natDigitsFuel (n + 1) n)

/-- `strftime`'s `%d`: the day of the month, zero-padded to two digits. -/
def pad2 (n : ℕ) : String := if n < 10 then "0" ++ natToString n else natToString n

/-- Python's rendering (`repr` / f-string interpolation) of a float that is
an exact multiple of 1/10, as all floats formatted by `weather.py` are:
the shortest round-trip representation `<int part>.<one digit>`. -/
def formatFloat1 (q : ℚ) : String :=
  let n := ratFloor (q * 10)
  (if n < 0 then "-" else "") ++ natToString (n.natAbs / 10) ++ "." ++ natToString (n.natAbs % 10)

/-- Python's `f"{x:.1f}"`: round the float to one decimal digit, then print
with exactly one digit after the point. -/
def format1f (q : ℚ) : String := formatFloat1 (round1 q)

/-- `DEGREE_SYMBOL` from `weather.py` (line 4): `"\N{DEGREE SIGN}C"`. -/
def DEGREE_SYMBOL : String := "°C"

/-- `format_temperature` from `weather.py` (lines 7–16):
`f"{temp}{DEGREE_SYMBOL}"` (in the module it is only applied to floats
produced by `convert_f_to_c`, which are multiples of 1/10). -/
def format_temperature (temp : ℚ) : String := formatFloat1 temp ++ DEGREE_SYMBOL

/-! ## Dates

`convert_date` calls `datetime.fromisoformat(iso_string[:19])` and then
`strftime("%A %d %B %Y")`.  `fromisoformatL` below is a *sound
under-approximation* of `datetime.fromisoformat` on code-point lists of
length ≤ 19: it accepts the extended-format calendar date `YYYY-MM-DD`,
optionally followed by one separator character (which Python skips
without validating, so any single character is allowed) and a time `HH`,
`HH:MM` or `HH:MM:SS`, with calendar-valid fields (year ≥ 1, hour < 24,
minute / second < 60).  The real `fromisoformat` accepts further forms
that this model rejects — timezone-suffixed short times such as
`"2021-07-06T12+05:00"` and, on Python ≥ 3.11, basic-format dates/times
and week dates — so acceptance by the model implies acceptance by Python
with the same calendar date, while rejection by the model implies
nothing about Python.  The theorems below therefore use the model's
acceptance only positively (success and the rendered value), never to
characterise the failure set. -/

/-- Numeric value of a digit character. -/
def dv (c : Char) : ℕ := c.toNat - 48

/-- Two-digit number from two digit characters. -/
def num2 (a b : Char) : ℕ := 10 * dv a + dv b

/-- Four-digit number from four digit characters. -/
def num4 (a b c d : Char) : ℕ := 1000 * dv a + 100 * dv b + 10 * dv c + dv d

/-- Gregorian leap year, as `datetime` uses. -/
def isLeap (y : ℕ) : Bool := (y % 4 == 0) && ((y % 100 != 0) || (y % 400 == 0))

/-- Days in a month of the proleptic Gregorian calendar. -/
def daysInMonth (y m : ℕ) : ℕ :=
  match m with
  | 1 => 31 | 2 => if isLeap y then 29 else 28 | 3 => 31 | 4 => 30
  | 5 => 31 | 6 => 30 | 7 => 31 | 8 => 31 | 9 => 30 | 10 => 31
  | 11 => 30 | 12 => 31 | _ => 0

/-- A calendar-valid `datetime.date` triple (`datetime.MINYEAR = 1`; the
four-digit year field bounds the year by 9999 on its own). -/
def validDate (y m d : ℕ) : Bool :=
  (1 ≤ y) && (1 ≤ m) && (m ≤ 12) && (1 ≤ d) && (d ≤ daysInMonth y m)

/-- All characters in the list are decimal digits. -/
def allDigits (l : List Char) : Bool := l.all Char.isDigit

/-- A sound under-approximation of `datetime.fromisoformat` on the code
points of a string of length ≤ 19, returning the parsed
`(year, month, day)` (the time of day is validated but not needed by
`strftime("%A %d %B %Y")`).  The date/time separator at position 10 is
skipped without validation, exactly as Python skips it.  Every list this
parser accepts, Python accepts with the same calendar date; Python
additionally accepts timezone-suffixed short times and (on 3.11+)
basic-format and week dates, which this model maps to `none` — so the
theorems use its acceptance only positively. -/
def fromisoformatL : List Char → Option (ℕ × ℕ × ℕ)
  | [a, b, c, d, '-', e, f, '-', g, h] =>
      if allDigits [a, b, c, d, e, f, g, h]
          && validDate (num4 a b c d) (num2 e f) (num2 g h) then
        some (num4 a b c d, num2 e f, num2 g h)
      else none
  | [a, b, c, d, '-', e, f, '-', g, h, _sep, h1, h2] =>
      if allDigits [a, b, c, d, e, f, g, h, h1, h2]
          && validDate (num4 a b c d) (num2 e f) (num2 g h)
          && (num2 h1 h2 < 24) then
        some (num4 a b c d, num2 e f, num2 g h)
      else none
  | [a, b, c, d, '-', e, f, '-', g, h, _sep, h1, h2, ':', m1, m2] =>
      if allDigits [a, b, c, d, e, f, g, h, h1, h2, m1, m2]
          && validDate (num4 a b c d) (num2 e f) (num2 g h)
          && (num2 h1 h2 < 24) && (num2 m1 m2 < 60) then
        some (num4 a b c d, num2 e f, num2 g h)
      else none
  | [a, b, c, d, '-', e, f, '-', g, h, _sep, h1, h2, ':', m1, m2, ':', s1, s2] =>
      if allDigits [a, b, c, d, e, f, g, h, h1, h2, m1, m2, s1, s2]
          && validDate (num4 a b c d) (num2 e f) (num2 g h)
          && (num2 h1 h2 < 24) && (num2 m1 m2 < 60) && (num2 s1 s2 < 60) then
        some (num4 a b c d, num2 e f, num2 g h)
      else none
  | _ => none

/-- The ISO-8601 *date-and-time-to-seconds* grammar, written from the
spec's words (§4.1): exactly `YYYY-MM-DDTHH:MM:SS` with calendar-valid
fields.  This is the spec-side definition used to compare the spec's
claimed failure condition with the parser's actual one. -/
def specDateAndTimeToSecondsL : List Char → Bool
  | [a, b, c, d, '-', e, f, '-', g, h, 'T', h1, h2, ':', m1, m2, ':', s1, s2] =>
      allDigits [a, b, c, d, e, f, g, h, h1, h2, m1, m2, s1, s2]
        && validDate (num4 a b c d) (num2 e f) (num2 g h)
        && (num2 h1 h2 < 24) && (num2 m1 m2 < 60) && (num2 s1 s2 < 60)
  | _ => false

/-- The same grammar on strings. -/
def specDateAndTimeToSeconds (s : String) : Bool := specDateAndTimeToSecondsL s.data

/-- Sakamoto's day-of-week table entry for month `m`. -/
def sakamotoOffset (m : ℕ) : ℕ :=
  match m with
  | 1 => 0 | 2 => 3 | 3 => 2 | 4 => 5 | 5 => 0 | 6 => 3
  | 7 => 5 | 8 => 1 | 9 => 4 | 10 => 6 | 11 => 2 | 12 => 4 | _ => 0

/-- Day of the week of a proleptic Gregorian date, 0 = Sunday, via
Sakamoto's congruence (what `strftime("%A")` reports). -/
def dayOfWeek (y m d : ℕ) : ℕ :=
  let y' := if m < 3 then y - 1 else y
  (y' + y'/4 - y'/100 + y'/400 + sakamotoOffset m + d) % 7

/-- `strftime`'s `%A`: full weekday name. -/
def weekdayName (w : ℕ) : String :=
  match w with
  | 0 => "Sunday" | 1 => "Monday" | 2 => "Tuesday" | 3 => "Wednesday"
  | 4 => "Thursday" | 5 => "Friday" | 6 => "Saturday" | _ => ""

/-- `strftime`'s `%B`: full month name. -/
def monthName (m : ℕ) : String :=
  match m with
  | 1 => "January" | 2 => "February" | 3 => "March" | 4 => "April"
  | 5 => "May" | 6 => "June" | 7 => "July" | 8 => "August"
  | 9 => "September" | 10 => "October" | 11 => "November" | 12 => "December"
  | _ => ""

/-- `dt.strftime("%A %d %B %Y")` on a parsed date triple. -/
def renderDate : ℕ × ℕ × ℕ → String
  | (y, m, d) =>
      weekdayName (dayOfWeek y m d) ++ " " ++ pad2 d ++ " " ++ monthName m ++ " " ++ natToString y

/-- `convert_date` from `weather.py` (lines 19–28):
`datetime.fromisoformat(iso_string[:19]).strftime("%A %d %B %Y")`; `none`
models the `ValueError` raised on a malformed string. -/
def convert_date (iso_string : String) : Option String :=
  (fromisoformatL (iso_string.data.take 19)).map renderDate

/-! ## Report generation

A `WeatherRecord` `(date, min_temp_f, max_temp_f)` is a
`String × ℚ × ℚ`, matching the rows `[row[0], int(row[1]), int(row[2])]`
produced by `load_data_from_csv`. -/

/-- The f-string assembled by `generate_summary` (lines 131–137), given the
already-computed day count, extreme temperatures, their rendered days and
the Fahrenheit averages. -/
def summaryText (num_days : ℕ) (min_temp : ℚ) (min_day : String)
    (max_temp : ℚ) (max_day : String) (avg_min avg_max : ℚ) : String :=
  natToString num_days ++ " Day Overview\n" ++
  "  The lowest temperature will be " ++ format_temperature (convert_f_to_c min_temp) ++
    ", and will occur on " ++ min_day ++ ".\n" ++
  "  The highest temperature will be " ++ format_temperature (convert_f_to_c max_temp) ++
    ", and will occur on " ++ max_day ++ ".\n" ++
  "  The average low this week is " ++ format1f (convert_f_to_c avg_min) ++ "°C.\n" ++
  "  The average high this week is " ++ format1f (convert_f_to_c avg_max) ++ "°C."

/-- `generate_summary` from `weather.py` (lines 106–138).  The match
cascade mirrors the evaluation order of the Python body: `min(min_temps)`
(raises on an empty dataset), `min_temps.index(min_temp)` (first
occurrence), indexing, `convert_date`; then the same for the maximum; the
averages are over the Fahrenheit values; the result is `summary + "\n"`. -/
def generate_summary (weather_data : List (String × ℚ × ℚ)) : Option String :=
  let num_days := weather_data.length
  let min_temps := weather_data.map (fun day => day.2.1)
  let max_temps := weather_data.map (fun day => day.2.2)
  match pyMin min_temps with
  | none => none
  | some min_temp =>
    match weather_data[pyIndex min_temps min_temp]? with
    | none => none
    | some min_row =>
      match convert_date min_row.1 with
      | none => none
      | some min_day =>
        match pyMax max_temps with
        | none => none
        | some max_temp =>
          match weather_data[pyIndex max_temps max_temp]? with
          | none => none
          | some max_row =>
            match convert_date max_row.1 with
            | none => none
            | some max_day =>
              some (summaryText num_days min_temp min_day max_temp max_day
                (min_temps.sum / (num_days : ℚ)) (max_temps.sum / (num_days : ℚ)) ++ "\n")

/-- The three lines appended for one record by the loop body of
`generate_daily_summary` (lines 150–156). -/
def dailyBlock (day : String × ℚ × ℚ) : Option (List String) :=
  match convert_date day.1 with
  | none => none
  | some date_str =>
      some ["---- " ++ date_str ++ " ----",
            "  Minimum Temperature: " ++ format_temperature (convert_f_to_c day.2.1),
            "  Maximum Temperature: " ++ format_temperature (convert_f_to_c day.2.2) ++ "\n"]

/-- The ASCII whitespace stripped by Python's `str.strip()` (the inputs
here contain no other Unicode whitespace). -/
def isPySpace (c : Char) : Bool :=
  (c == ' ') || (c == '\t') || (c == '\n') || (c == '\r') || (c == '\x0b') || (c == '\x0c')

/-- Python's `str.strip()` on code points. -/
def pyStripL (l : List Char) : List Char :=
  ((l.dropWhile isPySpace).reverse.dropWhile isPySpace).reverse

/-- Python's `str.strip()`. -/
def pyStrip (s : String) : String := String.mk (pyStripL s.data)

/-- Python's `"\n".join(lines)`. -/
def joinNl : List String → String
  | [] => ""
  | [a] => a
  | a :: b :: t => a ++ "\n" ++ joinNl (b :: t)

/-- `generate_daily_summary` from `weather.py` (lines 141–157): the loop
over records collecting three lines each, then
`"\n".join(lines).strip() + "\n" + "\n"`. -/
def generate_daily_summary (weather_data : List (String × ℚ × ℚ)) : Option String :=
  match weather_data.mapM dailyBlock with
  | none => none
  | some blocks => some (pyStrip (joinNl blocks.flatten) ++ "\n" ++ "\n")

/-- Split a code-point sequence at `'\n'` characters (so a string built
from `n` newlines yields `n + 1` fields, like Python's `split("\n")`). -/
def splitLines : List Char → List (List Char)
  | [] => [[]]
  | c :: t =>
      if c = '\n' then [] :: splitLines t
      else
        match splitLines t with
        | [] => [[c]]
        | h :: r => (c :: h) :: r

end Weather

namespace Weather

example : convert_f_to_c 212 = 100 := by decide
example : convert_f_to_c 32 = 0 := by decide
example : convert_f_to_c (493/5) = 37 := by decide
example : convert_f_to_c 45 = 36/5 := by decide
example : convert_f_to_c 60 = 78/5 := by decide
example : find_min [2, 1, 1] = some (1, 2) := by decide
example : find_max [2, 1, 1] = some (2, 0) := by decide
example : find_min ([] : List ℚ) = none := by decide
example : calculate_mean [1, 2, 3] = some 2 := by decide
example : convert_date "2021-07-06T12:00:00" = some "Tuesday 06 July 2021" := by decide
example : convert_date "2021-07-07T00:00:00" = some "Wednesday 07 July 2021" := by decide
example : convert_date "2021-07-06" = some "Tuesday 06 July 2021" := by decide
example : convert_date "2021-07-06T12:00:00.123+08:00" = some "Tuesday 06 July 2021" := by decide
example : convert_date "2021-07-06x12:00:00" = some "Tuesday 06 July 2021" := by decide
example : convert_date "2021-07-06 12:00:00" = some "Tuesday 06 July 2021" := by decide
example : convert_date "2021-13-06T12:00:00" = none := by decide
example : convert_date "2021-02-29T12:00:00" = none := by decide
example : convert_date "2020-02-29T12:00:00" = some "Saturday 29 February 2020" := by decide
example : convert_date "garbage" = none := by decide
example : specDateAndTimeToSeconds "2021-07-06" = false := by decide
example : specDateAndTimeToSeconds "2021-07-06T12:00:00" = true := by decide
example : formatFloat1 10 = "10.0" := by decide
example : formatFloat1 (78/5) = "15.6" := by decide
example : formatFloat1 (-17/5) = "-3.4" := by decide
example : format1f (43/5) = "8.6" := by decide
example : format_temperature (36/5) = "7.2°C" := by decide

example : generate_summary [("2021-07-06T00:00:00", 50, 59), ("2021-07-07T00:00:00", 45, 60)] =
    some ("2 Day Overview\n" ++
      "  The lowest temperature will be 7.2°C, and will occur on Wednesday 07 July 2021.\n" ++
      "  The highest temperature will be 15.6°C, and will occur on Wednesday 07 July 2021.\n" ++
      "  The average low this week is 8.6°C.\n" ++
      "  The average high this week is 15.3°C.\n") := by decide

example : generate_daily_summary [("2021-07-06T00:00:00", 50, 59)] =
    some ("---- Tuesday 06 July 2021 ----\n" ++
      "  Minimum Temperature: 10.0°C\n" ++
      "  Maximum Temperature: 15.0°C\n\n") := by decide

example : generate_daily_summary ([] : List (String × ℚ × ℚ)) = some "\n\n" := by decide

example : generate_summary ([] : List (String × ℚ × ℚ)) = none := by decide

/-! ## Supporting lemmas -/

theorem foldl_min_spec (t : List ℚ) : ∀ a : ℚ,
    (t.foldl min a = a ∨ t.foldl min a ∈ t) ∧
      t.foldl min a ≤ a ∧ ∀ x ∈ t, t.foldl min a ≤ x := by
  induction t with
  | nil => intro a; exact ⟨Or.inl rfl, le_refl a, by simp⟩
  | cons b t ih =>
    intro a
    simp only [List.foldl_cons]
    obtain ⟨hmem, hle, hall⟩ := ih (min a b)
    refine ⟨?_, le_trans hle (min_le_left a b), ?_⟩
    · rcases hmem with h | h
      · rcases min_choice a b with h2 | h2
        · exact Or.inl (h.trans h2)
        · exact Or.inr (by rw [h, h2]; exact List.mem_cons_self _ _)
      · exact Or.inr (List.mem_cons_of_mem _ h)
    · intro x hx
      rcases List.mem_cons.mp hx with rfl | hx
      · exact le_trans hle (min_le_right a x)
      · exact hall x hx

theorem foldl_max_spec (t : List ℚ) : ∀ a : ℚ,
    (t.foldl max a = a ∨ t.foldl max a ∈ t) ∧
      a ≤ t.foldl max a ∧ ∀ x ∈ t, x ≤ t.foldl max a := by
  induction t with
  | nil => intro a; exact ⟨Or.inl rfl, le_refl a, by simp⟩
  | cons b t ih =>
    intro a
    simp only [List.foldl_cons]
    obtain ⟨hmem, hle, hall⟩ := ih (max a b)
    refine ⟨?_, le_trans (le_max_left a b) hle, ?_⟩
    · rcases hmem with h | h
      · rcases max_choice a b with h2 | h2
        · exact Or.inl (h.trans h2)
        · exact Or.inr (by rw [h, h2]; exact List.mem_cons_self _ _)
      · exact Or.inr (List.mem_cons_of_mem _ h)
    · intro x hx
      rcases List.mem_cons.mp hx with rfl | hx
      · exact le_trans (le_max_right a x) hle
      · exact hall x hx

theorem pyMin_spec {l : List ℚ} {m : ℚ} (h : pyMin l = some m) :
    m ∈ l ∧ ∀ x ∈ l, m ≤ x := by
  cases l with
  | nil => simp [pyMin] at h
  | cons a t =>
    simp only [pyMin, Option.some.injEq] at h
    subst h
    obtain ⟨hmem, hle, hall⟩ := foldl_min_spec t a
    refine ⟨?_, ?_⟩
    · rcases hmem with h | h
      · rw [h]; exact List.mem_cons_self _ _
      · exact List.mem_cons_of_mem _ h
    · intro x hx
      rcases List.mem_cons.mp hx with rfl | hx
      · exact hle
      · exact hall x hx

theorem pyMax_spec {l : List ℚ} {M : ℚ} (h : pyMax l = some M) :
    M ∈ l ∧ ∀ x ∈ l, x ≤ M := by
  cases l with
  | nil => simp [pyMax] at h
  | cons a t =>
    simp only [pyMax, Option.some.injEq] at h
    subst h
    obtain ⟨hmem, hle, hall⟩ := foldl_max_spec t a
    refine ⟨?_, ?_⟩
    · rcases hmem with h | h
      · rw [h]; exact List.mem_cons_self _ _
      · exact List.mem_cons_of_mem _ h
    · intro x hx
      rcases List.mem_cons.mp hx with rfl | hx
      · exact hle
      · exact hall x hx

theorem pyMin_isSome {l : List ℚ} (h : l ≠ []) : ∃ m, pyMin l = some m := by
  cases l with
  | nil => exact absurd rfl h
  | cons a t => exact ⟨t.foldl min a, rfl⟩

theorem pyMax_isSome {l : List ℚ} (h : l ≠ []) : ∃ M, pyMax l = some M := by
  cases l with
  | nil => exact absurd rfl h
  | cons a t => exact ⟨t.foldl max a, rfl⟩

theorem pyIndex_spec {l : List ℚ} {x : ℚ} (h : x ∈ l) :
    pyIndex l x < l.length ∧ l[pyIndex l x]? = some x ∧
      ∀ j < pyIndex l x, l[j]? ≠ some x := by
  induction l with
  | nil => simp at h
  | cons a t ih =>
    by_cases hax : a = x
    · subst hax
      refine ⟨by simp [pyIndex], by simp [pyIndex], ?_⟩
      intro j hj
      simp [pyIndex] at hj
    · have hx : x ∈ t := by
        rcases List.mem_cons.mp h with rfl | hmem
        · exact absurd rfl hax
        · exact hmem
      obtain ⟨h1, h2, h3⟩ := ih hx
      simp only [pyIndex, if_neg hax]
      refine ⟨by simpa using Nat.succ_lt_succ h1, by simpa using h2, ?_⟩
      intro j hj
      cases j with
      | zero => simp only [List.getElem?_cons_zero]; simp [hax]
      | succ j =>
        simp only [List.getElem?_cons_succ]
        exact h3 j (Nat.lt_of_succ_lt_succ hj)

/-- The index `len - 1 - reversed.index(x)` computed by `find_min` /
`find_max` is the *last* occurrence of `x`. -/
theorem lastIndex_spec {l : List ℚ} {x : ℚ} (h : x ∈ l) :
    l[l.length - 1 - pyIndex l.reverse x]? = some x ∧
      ∀ j, l.length - 1 - pyIndex l.reverse x < j → l[j]? ≠ some x := by
  have hxr : x ∈ l.reverse := List.mem_reverse.mpr h
  obtain ⟨hk, hk2, hk3⟩ := pyIndex_spec hxr
  rw [List.length_reverse] at hk
  constructor
  · rw [List.getElem?_reverse hk] at hk2
    exact hk2
  · intro j hij
    by_cases hjl : j < l.length
    · have hlj : l.length - 1 - j < l.length := by omega
      have hrev := List.getElem?_reverse hlj
      have hj' : l.length - 1 - (l.length - 1 - j) = j := by omega
      rw [hj'] at hrev
      rw [← hrev]
      exact hk3 _ (by omega)
    · rw [List.getElem?_eq_none (by omega)]
      simp

/-! ## The claims -/

/-- C1: for every non-empty list `v`, `find_min v` returns the minimum of
`v` together with the largest index holding that minimum, and `find_max v`
the maximum together with the largest index holding it.  (The float
coercions in the source are the identity on the exact rationals of this
model.) -/
theorem claim_C1 (v : List ℚ) (hne : v ≠ []) :
    (∃ m i, find_min v = some (m, i) ∧ m ∈ v ∧ (∀ x ∈ v, m ≤ x) ∧
      v[i]? = some m ∧ ∀ j, i < j → v[j]? ≠ some m) ∧
    (∃ M i, find_max v = some (M, i) ∧ M ∈ v ∧ (∀ x ∈ v, x ≤ M) ∧
      v[i]? = some M ∧ ∀ j, i < j → v[j]? ≠ some M) := by
  obtain ⟨m, hm⟩ := pyMin_isSome hne
  obtain ⟨M, hM⟩ := pyMax_isSome hne
  obtain ⟨hmmem, hmall⟩ := pyMin_spec hm
  obtain ⟨hMmem, hMall⟩ := pyMax_spec hM
  obtain ⟨hmget, hmlast⟩ := lastIndex_spec hmmem
  obtain ⟨hMget, hMlast⟩ := lastIndex_spec hMmem
  refine ⟨⟨m, _, ?_, hmmem, hmall, hmget, hmlast⟩,
          ⟨M, _, ?_, hMmem, hMall, hMget, hMlast⟩⟩
  · simp [find_min, hm]
  · simp [find_max, hM]

/-- C1 witness: instantiated on `[2, 1, 1]`, whose minimum 1 occurs last at
index 2 and maximum 2 at index 0. -/
theorem claim_C1_witness :
    (∃ m i, find_min [2, 1, 1] = some (m, i) ∧ m ∈ [(2 : ℚ), 1, 1] ∧
      (∀ x ∈ [(2 : ℚ), 1, 1], m ≤ x) ∧
      [(2 : ℚ), 1, 1][i]? = some m ∧ ∀ j, i < j → [(2 : ℚ), 1, 1][j]? ≠ some m) ∧
    (∃ M i, find_max [2, 1, 1] = some (M, i) ∧ M ∈ [(2 : ℚ), 1, 1] ∧
      (∀ x ∈ [(2 : ℚ), 1, 1], x ≤ M) ∧
      [(2 : ℚ), 1, 1][i]? = some M ∧ ∀ j, i < j → [(2 : ℚ), 1, 1][j]? ≠ some M) :=
  claim_C1 [2, 1, 1] (by decide)

/-- C4: `find_min` and `find_max` return the defined empty result exactly
on the empty sequence — never on a non-empty one — and an all-zero
sequence is handled normally (value 0, last index). -/
theorem claim_C4 :
    find_min ([] : List ℚ) = none ∧ find_max ([] : List ℚ) = none ∧
    (∀ v : List ℚ, v ≠ [] → (find_min v).isSome ∧ (find_max v).isSome) ∧
    find_min [0, 0, 0] = some (0, 2) ∧ find_max [0, 0, 0] = some (0, 2) := by
  refine ⟨by decide, by decide, ?_, by decide, by decide⟩
  intro v hv
  obtain ⟨m, hm⟩ := pyMin_isSome hv
  obtain ⟨M, hM⟩ := pyMax_isSome hv
  exact ⟨by simp [find_min, hm], by simp [find_max, hM]⟩

/-- C4 witness: the non-empty (falsy-element) list `[0]` is not mistaken
for "no data". -/
theorem claim_C4_witness :
    (find_min [(0 : ℚ)]).isSome ∧ (find_max [(0 : ℚ)]).isSome :=
  claim_C4.2.2.1 [0] (by decide)

/-- C5: `convert_f_to_c` computes `(t - 32) * 5/9` rounded to one decimal
place; in particular 32 °F ↦ 0.0 °C, 212 °F ↦ 100.0 °C and
98.6 °F ↦ 37.0 °C. -/
theorem claim_C5 :
    (∀ q : ℚ, convert_f_to_c q = round1 ((q - 32) * 5 / 9)) ∧
    convert_f_to_c 32 = 0 ∧ convert_f_to_c 212 = 100 ∧
    convert_f_to_c (493 / 5) = 37 :=
  ⟨fun _ => rfl, by decide, by decide, by decide⟩

/-- C8: `calculate_mean` is the arithmetic mean on every non-empty list
(`calculate_mean [1,2,3] = 2`) and fails (division by zero) on `[]`. -/
theorem claim_C8 :
    calculate_mean ([] : List ℚ) = none ∧
    calculate_mean [1, 2, 3] = some 2 ∧
    ∀ l : List ℚ, l ≠ [] → ∃ m, calculate_mean l = some m ∧
      (l.length : ℚ) * m = l.sum := by
  refine ⟨by decide, by decide, ?_⟩
  intro l hl
  have hlen : l.length ≠ 0 := fun h => hl (List.length_eq_zero.mp h)
  have hlenq : (l.length : ℚ) ≠ 0 := Nat.cast_ne_zero.mpr hlen
  refine ⟨l.sum / (l.length : ℚ), by simp [calculate_mean, hlen], ?_⟩
  field_simp

/-- C8 witness: the mean of `[4, 6]` is a value `m` with `2 * m = 10`. -/
theorem claim_C8_witness :
    ∃ m, calculate_mean [4, 6] = some m ∧
      (([(4 : ℚ), 6].length : ℚ)) * m = [(4 : ℚ), 6].sum :=
  claim_C8.2.2 [4, 6] (by decide)

/-- C3 counterexample: on the dataset
`[("2021-07-06T00:00:00",50,59),("2021-07-07T00:00:00",45,60)]` the lowest
min-temperature is 45 °F (the *second* record), so `generate_summary`
reports the lowest temperature as 7.2 °C on Wednesday 07 July 2021 — not,
as claimed, 10.0 °C on Tuesday 06 July 2021. -/
theorem claim_C3_counterexample :
    generate_summary [("2021-07-06T00:00:00", 50, 59), ("2021-07-07T00:00:00", 45, 60)] =
      some ("2 Day Overview\n" ++
        "  The lowest temperature will be 7.2°C, and will occur on Wednesday 07 July 2021.\n" ++
        "  The highest temperature will be 15.6°C, and will occur on Wednesday 07 July 2021.\n" ++
        "  The average low this week is 8.6°C.\n" ++
        "  The average high this week is 15.3°C.\n") ∧
    (splitLines ("2 Day Overview\n" ++
        "  The lowest temperature will be 7.2°C, and will occur on Wednesday 07 July 2021.\n" ++
        "  The highest temperature will be 15.6°C, and will occur on Wednesday 07 July 2021.\n" ++
        "  The average low this week is 8.6°C.\n" ++
        "  The average high this week is 15.3°C.\n" : String).data)[1]? =
      some ("  The lowest temperature will be 7.2°C, and will occur on Wednesday 07 July 2021." : String).data ∧
    (splitLines ("2 Day Overview\n" ++
        "  The lowest temperature will be 7.2°C, and will occur on Wednesday 07 July 2021.\n" ++
        "  The highest temperature will be 15.6°C, and will occur on Wednesday 07 July 2021.\n" ++
        "  The average low this week is 8.6°C.\n" ++
        "  The average high this week is 15.3°C.\n" : String).data)[1]? ≠
      some ("  The lowest temperature will be 10.0°C, and will occur on Tuesday 06 July 2021." : String).data := by
  decide

/-- C3 amended: on that dataset `generate_summary` reports the lowest
temperature as 7.2 °C on Wednesday 07 July 2021 (the minimum 45 °F is held
by the second record), the highest as 15.6 °C on Wednesday 07 July 2021,
and the average lines come from the Fahrenheit means
(47.5 °F ↦ 8.6 °C and 59.5 °F ↦ 15.3 °C: average first, then convert and
round to one decimal). -/
theorem claim_C3_amended :
    generate_summary [("2021-07-06T00:00:00", 50, 59), ("2021-07-07T00:00:00", 45, 60)] =
      some ("2 Day Overview\n" ++
        "  The lowest temperature will be 7.2°C, and will occur on Wednesday 07 July 2021.\n" ++
        "  The highest temperature will be 15.6°C, and will occur on Wednesday 07 July 2021.\n" ++
        "  The average low this week is 8.6°C.\n" ++
        "  The average high this week is 15.3°C.\n") ∧
    convert_f_to_c ((50 + 45) / 2) = 43 / 5 ∧
    convert_f_to_c ((59 + 60) / 2) = 153 / 10 ∧
    format1f (43 / 5) = "8.6" ∧ format1f (153 / 10) = "15.3" := by
  decide

/-- C2: `generate_summary` looks up the extreme temperatures with
`list.index`, i.e. *first*-occurrence semantics: the record used for the
lowest-temperature day is the first one attaining the minimum of the min
temperatures, and the record for the highest-temperature day the first one
attaining the maximum of the max temperatures (in deliberate contrast to
`find_min`/`find_max`'s last-occurrence policy, cf. C1). -/
theorem claim_C2 (d : List (String × ℚ × ℚ)) (m M : ℚ)
    (hm : pyMin (d.map (fun day => day.2.1)) = some m)
    (hM : pyMax (d.map (fun day => day.2.2)) = some M)
    (rMin rMax : String × ℚ × ℚ)
    (hrMin : d[pyIndex (d.map (fun day => day.2.1)) m]? = some rMin)
    (hrMax : d[pyIndex (d.map (fun day => day.2.2)) M]? = some rMax)
    (sMin sMax : String)
    (hsMin : convert_date rMin.1 = some sMin)
    (hsMax : convert_date rMax.1 = some sMax) :
    ((d.map (fun day => day.2.1))[pyIndex (d.map (fun day => day.2.1)) m]? = some m ∧
      ∀ j < pyIndex (d.map (fun day => day.2.1)) m,
        (d.map (fun day => day.2.1))[j]? ≠ some m) ∧
    ((d.map (fun day => day.2.2))[pyIndex (d.map (fun day => day.2.2)) M]? = some M ∧
      ∀ j < pyIndex (d.map (fun day => day.2.2)) M,
        (d.map (fun day => day.2.2))[j]? ≠ some M) ∧
    generate_summary d =
      some (summaryText d.length m sMin M sMax
        ((d.map (fun day => day.2.1)).sum / (d.length : ℚ))
        ((d.map (fun day => day.2.2)).sum / (d.length : ℚ)) ++ "\n") := by
  obtain ⟨hmmem, -⟩ := pyMin_spec hm
  obtain ⟨hMmem, -⟩ := pyMax_spec hM
  obtain ⟨-, hmget, hmfirst⟩ := pyIndex_spec hmmem
  obtain ⟨-, hMget, hMfirst⟩ := pyIndex_spec hMmem
  refine ⟨⟨hmget, hmfirst⟩, ⟨hMget, hMfirst⟩, ?_⟩
  simp only [generate_summary, hm, hM, hrMin, hrMax, hsMin, hsMax]

/-- C2 witness: on a dataset whose two records tie on both extremes, the
summary picks the *first* record's day, Tuesday 06 July 2021, for both. -/
theorem claim_C2_witness :
    (([("2021-07-06T00:00:00", (45 : ℚ), (60 : ℚ)), ("2021-07-07T00:00:00", 45, 60)].map
        (fun day => day.2.1))[pyIndex
          ([("2021-07-06T00:00:00", (45 : ℚ), (60 : ℚ)), ("2021-07-07T00:00:00", 45, 60)].map
            (fun day => day.2.1)) 45]? = some 45 ∧
      ∀ j < pyIndex
          ([("2021-07-06T00:00:00", (45 : ℚ), (60 : ℚ)), ("2021-07-07T00:00:00", 45, 60)].map
            (fun day => day.2.1)) 45,
        (([("2021-07-06T00:00:00", (45 : ℚ), (60 : ℚ)), ("2021-07-07T00:00:00", 45, 60)].map
          (fun day => day.2.1)))[j]? ≠ some 45) ∧
    (([("2021-07-06T00:00:00", (45 : ℚ), (60 : ℚ)), ("2021-07-07T00:00:00", 45, 60)].map
        (fun day => day.2.2))[pyIndex
          ([("2021-07-06T00:00:00", (45 : ℚ), (60 : ℚ)), ("2021-07-07T00:00:00", 45, 60)].map
            (fun day => day.2.2)) 60]? = some 60 ∧
      ∀ j < pyIndex
          ([("2021-07-06T00:00:00", (45 : ℚ), (60 : ℚ)), ("2021-07-07T00:00:00", 45, 60)].map
            (fun day => day.2.2)) 60,
        (([("2021-07-06T00:00:00", (45 : ℚ), (60 : ℚ)), ("2021-07-07T00:00:00", 45, 60)].map
          (fun day => day.2.2)))[j]? ≠ some 60) ∧
    generate_summary [("2021-07-06T00:00:00", (45 : ℚ), (60 : ℚ)), ("2021-07-07T00:00:00", 45, 60)] =
      some (summaryText 2 45 "Tuesday 06 July 2021" 60 "Tuesday 06 July 2021"
        (((45 : ℚ) + 45) / 2) (((60 : ℚ) + 60) / 2) ++ "\n") := by
  have h := claim_C2
    [("2021-07-06T00:00:00", (45 : ℚ), (60 : ℚ)), ("2021-07-07T00:00:00", 45, 60)]
    45 60 (by decide) (by decide)
    ("2021-07-06T00:00:00", (45 : ℚ), (60 : ℚ)) ("2021-07-06T00:00:00", (45 : ℚ), (60 : ℚ))
    (by decide) (by decide)
    "Tuesday 06 July 2021" "Tuesday 06 July 2021" (by decide) (by decide)
  refine ⟨h.1, h.2.1, ?_⟩
  exact h.2.2

/-- Every string matching the spec's date-and-time-to-seconds grammar is
accepted by the parser (which in addition accepts date-only and
shorter-time forms). -/
theorem spec_accepted {l : List Char} (h : specDateAndTimeToSecondsL l = true) :
    (fromisoformatL l).isSome := by
  unfold specDateAndTimeToSecondsL at h
  split at h
  · simp only [Bool.and_eq_true, decide_eq_true_eq] at h
    obtain ⟨⟨⟨⟨hdig, hdate⟩, hh⟩, hmi⟩, hs⟩ := h
    simp only [fromisoformatL]
    simp [hdig, hdate, hh, hmi, hs]
  · exact absurd h (by simp)

/-- C6 counterexample: the truncated string `"2021-07-06"` is *not* in the
ISO-8601 date-and-time-to-seconds grammar (it has no time part), yet
`convert_date` succeeds on it — refuting the claimed "fails if and only
if" condition. -/
theorem claim_C6_counterexample :
    convert_date "2021-07-06" = some "Tuesday 06 July 2021" ∧
    specDateAndTimeToSeconds "2021-07-06" = false := by decide

/-- C6 amended: `convert_date` depends only on the first 19 characters of
its input (characters beyond position 19 — fractional seconds, timezone
suffixes — never affect the result); whenever the truncated substring is
a valid ISO-8601 date-and-time-to-seconds string, `convert_date` succeeds
and renders the parsed date as full weekday name, zero-padded day, full
month name and four-digit year; validity per that grammar is sufficient
but — as the counterexample shows — *not* necessary for success, since
`fromisoformat` also accepts other forms such as date-only strings; and
`convert_date "2021-07-06T12:00:00" = "Tuesday 06 July 2021"`. -/
theorem claim_C6 :
    (∀ s t : String, s.data.take 19 = t.data.take 19 → convert_date s = convert_date t) ∧
    (∀ s : String, specDateAndTimeToSecondsL (s.data.take 19) = true →
      (convert_date s).isSome) ∧
    (∀ s : String, ∀ y m d : ℕ, fromisoformatL (s.data.take 19) = some (y, m, d) →
      convert_date s = some (weekdayName (dayOfWeek y m d) ++ " " ++ pad2 d ++ " " ++
        monthName m ++ " " ++ natToString y)) ∧
    convert_date "2021-07-06T12:00:00" = some "Tuesday 06 July 2021" := by
  refine ⟨?_, ?_, ?_, by decide⟩
  · intro s t h
    unfold convert_date
    rw [h]
  · intro s h
    unfold convert_date
    rcases Option.isSome_iff_exists.mp (spec_accepted h) with ⟨v, hv⟩
    simp [hv]
  · intro s y m d h
    simp [convert_date, h, renderDate]

/-- C6 witness: timezone suffix and fractional seconds beyond position 19
do not change the result, and a grammar-valid truncation parses. -/
theorem claim_C6_witness :
    convert_date "2021-07-06T12:00:00.123456+08:00" = convert_date "2021-07-06T12:00:00" ∧
    (convert_date "2021-12-31T23:59:59").isSome := by
  have h := claim_C6
  exact ⟨h.1 "2021-07-06T12:00:00.123456+08:00" "2021-07-06T12:00:00" (by decide),
         h.2.1 "2021-12-31T23:59:59" (by decide)⟩

/-- When the dataset is non-empty and every date renders, the whole
success path of `generate_summary` goes through and the output is the
fixed-format report plus a trailing newline. -/
theorem generate_summary_success {d : List (String × ℚ × ℚ)} (hne : d ≠ [])
    (hdates : ∀ r ∈ d, (convert_date r.1).isSome) :
    ∃ m M sMin sMax,
      generate_summary d = some (summaryText d.length m sMin M sMax
        ((d.map (fun day => day.2.1)).sum / (d.length : ℚ))
        ((d.map (fun day => day.2.2)).sum / (d.length : ℚ)) ++ "\n") := by
  have hmapne1 : d.map (fun day => day.2.1) ≠ [] := by
    simpa [List.map_eq_nil_iff] using hne
  have hmapne2 : d.map (fun day => day.2.2) ≠ [] := by
    simpa [List.map_eq_nil_iff] using hne
  obtain ⟨m, hm⟩ := pyMin_isSome hmapne1
  obtain ⟨M, hM⟩ := pyMax_isSome hmapne2
  obtain ⟨hmmem, -⟩ := pyMin_spec hm
  obtain ⟨hMmem, -⟩ := pyMax_spec hM
  obtain ⟨hmlt, -, -⟩ := pyIndex_spec hmmem
  obtain ⟨hMlt, -, -⟩ := pyIndex_spec hMmem
  rw [List.length_map] at hmlt hMlt
  obtain ⟨rMin, hrMin⟩ : ∃ r, d[pyIndex (d.map (fun day => day.2.1)) m]? = some r :=
    ⟨_, List.getElem?_eq_getElem hmlt⟩
  obtain ⟨rMax, hrMax⟩ : ∃ r, d[pyIndex (d.map (fun day => day.2.2)) M]? = some r :=
    ⟨_, List.getElem?_eq_getElem hMlt⟩
  have hrMinMem : rMin ∈ d := by
    obtain ⟨hlt, heq⟩ := List.getElem?_eq_some_iff.mp hrMin
    exact heq ▸ List.getElem_mem hlt
  have hrMaxMem : rMax ∈ d := by
    obtain ⟨hlt, heq⟩ := List.getElem?_eq_some_iff.mp hrMax
    exact heq ▸ List.getElem_mem hlt
  obtain ⟨sMin, hsMin⟩ := Option.isSome_iff_exists.mp (hdates _ hrMinMem)
  obtain ⟨sMax, hsMax⟩ := Option.isSome_iff_exists.mp (hdates _ hrMaxMem)
  refine ⟨m, M, sMin, sMax, ?_⟩
  simp only [generate_summary, hm, hM, hrMin, hrMax, hsMin, hsMax]

/-- C7: under well-typed records (every date parses, as the data-model
contract guarantees), `generate_summary` fails exactly on the empty
dataset, and every successful output ends in a trailing newline. -/
theorem claim_C7 (d : List (String × ℚ × ℚ))
    (hdates : ∀ r ∈ d, (convert_date r.1).isSome) :
    ((generate_summary d).isSome ↔ d ≠ []) ∧
    ∀ s, generate_summary d = some s → ∃ t, s = t ++ "\n" := by
  by_cases hne : d = []
  · subst hne
    refine ⟨by simp [generate_summary, pyMin], ?_⟩
    intro s hs
    simp [generate_summary, pyMin] at hs
  · obtain ⟨m, M, sMin, sMax, heq⟩ := generate_summary_success hne hdates
    refine ⟨by simp [heq, hne], ?_⟩
    intro s hs
    rw [heq] at hs
    exact ⟨_, (Option.some_inj.mp hs).symm⟩

/-- C7 witness: instantiated on a one-record dataset with a valid date. -/
theorem claim_C7_witness :
    ((generate_summary [("2021-07-06T00:00:00", (50 : ℚ), (59 : ℚ))]).isSome ↔
      [("2021-07-06T00:00:00", (50 : ℚ), (59 : ℚ))] ≠ []) ∧
    ∀ s, generate_summary [("2021-07-06T00:00:00", (50 : ℚ), (59 : ℚ))] = some s →
      ∃ t, s = t ++ "\n" :=
  claim_C7 [("2021-07-06T00:00:00", (50 : ℚ), (59 : ℚ))] (by decide)

theorem digitChar_ne_newline (d : ℕ) : digitChar d ≠ '\n' := by
  unfold digitChar
  split <;> decide

theorem natDigitsFuel_no_newline : ∀ fuel n : ℕ, '\n' ∉ natDigitsFuel fuel n := by
  intro fuel
  induction fuel with
  | zero => intro n; simp [natDigitsFuel]
  | succ f ih =>
    intro n
    unfold natDigitsFuel
    split
    · simp only [List.mem_singleton]
      exact fun h => digitChar_ne_newline n h.symm
    · intro hmem
      rcases List.mem_append.mp hmem with h | h
      · exact ih _ h
      · rw [List.mem_singleton] at h
        exact digitChar_ne_newline _ h.symm

theorem natToString_no_newline (n : ℕ) : '\n' ∉ (natToString n).data :=
  natDigitsFuel_no_newline _ _

theorem formatFloat1_no_newline (q : ℚ) : '\n' ∉ (formatFloat1 q).data := by
  unfold formatFloat1
  by_cases hn : ratFloor (q * 10) < 0 <;>
    simp only [hn, if_pos, if_neg, not_false_eq_true, String.data_append,
      List.mem_append, not_or] <;>
    refine ⟨⟨⟨?_, natToString_no_newline _⟩, ?_⟩, natToString_no_newline _⟩ <;> decide

theorem format_temperature_no_newline (q : ℚ) :
    '\n' ∉ (format_temperature q).data := by
  unfold format_temperature
  simp only [String.data_append, List.mem_append, not_or]
  exact ⟨formatFloat1_no_newline q, by decide⟩

theorem splitLines_no_newline {A : List Char} (h : '\n' ∉ A) : splitLines A = [A] := by
  induction A with
  | nil => rfl
  | cons c t ih =>
    have hc : ¬ c = '\n' := fun hc => h (by rw [hc]; exact List.mem_cons_self _ _)
    have ht : '\n' ∉ t := fun hm => h (List.mem_cons_of_mem _ hm)
    rw [splitLines, if_neg hc, ih ht]

theorem splitLines_append {A B : List Char} (h : '\n' ∉ A) :
    splitLines (A ++ '\n' :: B) = A :: splitLines B := by
  induction A with
  | nil => simp [splitLines]
  | cons c t ih =>
    have hc : ¬ c = '\n' := fun hc => h (by rw [hc]; exact List.mem_cons_self _ _)
    have ht : '\n' ∉ t := fun hm => h (List.mem_cons_of_mem _ hm)
    rw [List.cons_append, splitLines, if_neg hc, ih ht]

/-- `str.strip()` on a block whose first character is not whitespace and
whose last character (before a final newline) is not whitespace removes
exactly that final newline. -/
theorem pyStripL_concat_newline {a b : Char} {t t2 : List Char}
    (ha : isPySpace a = false) (hb : isPySpace b = false)
    (heq : a :: t = t2 ++ [b]) :
    pyStripL ((a :: t) ++ ['\n']) = a :: t := by
  unfold pyStripL
  have h1 : List.dropWhile isPySpace ((a :: t) ++ ['\n']) = (a :: t) ++ ['\n'] := by
    rw [List.cons_append, List.dropWhile_cons, ha]
    simp
  rw [h1, List.reverse_append]
  have h2 : (a :: t).reverse = b :: t2.reverse := by
    rw [heq, List.reverse_append]
    simp
  rw [h2]
  have h3 : (['\n'] : List Char).reverse = ['\n'] := rfl
  rw [h3, List.singleton_append, List.dropWhile_cons]
  have h4 : isPySpace '\n' = true := rfl
  rw [h4]
  simp only [if_pos, List.dropWhile_cons, hb]
  simp only [Bool.false_eq_true, if_false, List.reverse_cons, List.reverse_reverse]
  rw [← heq]

theorem generate_daily_summary_singleton {r : String × ℚ × ℚ} {s : String}
    (h1 : convert_date r.1 = some s) :
    generate_daily_summary [r] = some (pyStrip (
      ("---- " ++ s ++ " ----" ++ "\n") ++
      (("  Minimum Temperature: " ++ format_temperature (convert_f_to_c r.2.1) ++ "\n") ++
       ("  Maximum Temperature: " ++ format_temperature (convert_f_to_c r.2.2) ++ "\n"))) ++
      "\n" ++ "\n") := by
  have hblock : dailyBlock r = some
      ["---- " ++ s ++ " ----",
       "  Minimum Temperature: " ++ format_temperature (convert_f_to_c r.2.1),
       "  Maximum Temperature: " ++ format_temperature (convert_f_to_c r.2.2) ++ "\n"] := by
    simp [dailyBlock, h1]
  have hmap : List.mapM dailyBlock [r] = some
      [["---- " ++ s ++ " ----",
        "  Minimum Temperature: " ++ format_temperature (convert_f_to_c r.2.1),
        "  Maximum Temperature: " ++ format_temperature (convert_f_to_c r.2.2) ++ "\n"]] := by
    rw [List.mapM_cons, List.mapM_nil, hblock]
    rfl
  unfold generate_daily_summary
  rw [hmap]
  simp only [List.flatten, List.append_nil, joinNl]

/-- The strip lemma specialised to a block of the shape
`first-char ++ middle ++ last-char` produced by the daily summary. -/
theorem pyStripL_cons_append_newline {A B2 : List Char} {a b : Char}
    (ha : isPySpace a = false) (hb : isPySpace b = false) :
    pyStripL ((a :: (A ++ (B2 ++ [b]))) ++ ['\n']) = a :: (A ++ (B2 ++ [b])) := by
  have heq : a :: (A ++ (B2 ++ [b])) = (a :: (A ++ B2)) ++ [b] := by simp
  exact pyStripL_concat_newline ha hb heq

/-- C9 (amended): on any one-record dataset whose date renders (to a
newline-free string, as every rendered date is), `generate_daily_summary`
produces the header line plus exactly *two* content lines, followed by
exactly one blank line before the end of the string; the joined block is
stripped of surrounding whitespace and terminated with exactly two newline
characters. -/
theorem claim_C9 (date : String) (mn mx : ℚ) (ds : String)
    (h1 : convert_date date = some ds) (h2 : '\n' ∉ ds.data) :
    ∃ S, generate_daily_summary [(date, mn, mx)] = some S ∧
      S.data = ("---- " ++ ds ++ " ----").data ++ '\n' ::
        (("  Minimum Temperature: " ++ format_temperature (convert_f_to_c mn)).data ++ '\n' ::
          (("  Maximum Temperature: " ++ format_temperature (convert_f_to_c mx)).data ++
            ['\n', '\n'])) ∧
      splitLines S.data =
        [("---- " ++ ds ++ " ----").data,
         ("  Minimum Temperature: " ++ format_temperature (convert_f_to_c mn)).data,
         ("  Maximum Temperature: " ++ format_temperature (convert_f_to_c mx)).data,
         [], []] ∧
      ("---- " ++ ds ++ " ----").data ≠ [] ∧
      ("  Minimum Temperature: " ++ format_temperature (convert_f_to_c mn)).data ≠ [] ∧
      ("  Maximum Temperature: " ++ format_temperature (convert_f_to_c mx)).data ≠ [] := by
  have hd5 : ("---- " : String).data = ['-', '-', '-', '-', ' '] := rfl
  have hd5' : (" ----" : String).data = [' ', '-', '-', '-', '-'] := rfl
  have hdm : ("  Minimum Temperature: " : String).data =
      "  Minimum Temperature: ".data := rfl
  have hnl : ("\n" : String).data = ['\n'] := rfl
  -- the three lines of the block
  have hL1 : '\n' ∉ ("---- " ++ ds ++ " ----").data := by
    simp only [String.data_append, List.mem_append, not_or, hd5, hd5']
    exact ⟨⟨by decide, h2⟩, by decide⟩
  have hL2 : '\n' ∉ ("  Minimum Temperature: " ++ format_temperature (convert_f_to_c mn)).data := by
    simp only [String.data_append, List.mem_append, not_or]
    exact ⟨by decide, format_temperature_no_newline _⟩
  have hL3 : '\n' ∉ ("  Maximum Temperature: " ++ format_temperature (convert_f_to_c mx)).data := by
    simp only [String.data_append, List.mem_append, not_or]
    exact ⟨by decide, format_temperature_no_newline _⟩
  have hgen := generate_daily_summary_singleton (r := (date, mn, mx)) h1
  -- the joined block before stripping, as code points
  have hstrip : pyStripL
      ((("---- " ++ ds ++ " ----").data ++ '\n' ::
        (("  Minimum Temperature: " ++ format_temperature (convert_f_to_c mn)).data ++ '\n' ::
          ("  Maximum Temperature: " ++ format_temperature (convert_f_to_c mx)).data)) ++ ['\n']) =
      ("---- " ++ ds ++ " ----").data ++ '\n' ::
        (("  Minimum Temperature: " ++ format_temperature (convert_f_to_c mn)).data ++ '\n' ::
          ("  Maximum Temperature: " ++ format_temperature (convert_f_to_c mx)).data) := by
    have hX : ("---- " ++ ds ++ " ----").data ++ '\n' ::
        (("  Minimum Temperature: " ++ format_temperature (convert_f_to_c mn)).data ++ '\n' ::
          ("  Maximum Temperature: " ++ format_temperature (convert_f_to_c mx)).data) =
        '-' :: ((['-', '-', '-', ' '] ++
          (ds.data ++ ((" ----" : String).data ++ '\n' ::
            (("  Minimum Temperature: " ++ format_temperature (convert_f_to_c mn)).data ++ '\n' ::
              ("  Maximum Temperature: " : String).data)))) ++
          (((formatFloat1 (convert_f_to_c mx)).data ++ ['°']) ++ ['C'])) := by
      simp [String.data_append, hd5, format_temperature, DEGREE_SYMBOL, List.append_assoc]
    rw [hX]
    exact pyStripL_cons_append_newline (by decide) (by decide)
  have hSdata : ((pyStrip (
      ("---- " ++ ds ++ " ----" ++ "\n") ++
      (("  Minimum Temperature: " ++ format_temperature (convert_f_to_c mn) ++ "\n") ++
       ("  Maximum Temperature: " ++ format_temperature (convert_f_to_c mx) ++ "\n"))) ++
      "\n" ++ "\n") : String).data =
      ("---- " ++ ds ++ " ----").data ++ '\n' ::
        (("  Minimum Temperature: " ++ format_temperature (convert_f_to_c mn)).data ++ '\n' ::
          (("  Maximum Temperature: " ++ format_temperature (convert_f_to_c mx)).data ++
            ['\n', '\n'])) := by
    have hW : (("---- " ++ ds ++ " ----" ++ "\n") ++
        (("  Minimum Temperature: " ++ format_temperature (convert_f_to_c mn) ++ "\n") ++
         ("  Maximum Temperature: " ++ format_temperature (convert_f_to_c mx) ++ "\n"))).data =
        (("---- " ++ ds ++ " ----").data ++ '\n' ::
          (("  Minimum Temperature: " ++ format_temperature (convert_f_to_c mn)).data ++ '\n' ::
            ("  Maximum Temperature: " ++ format_temperature (convert_f_to_c mx)).data)) ++ ['\n'] := by
      simp [String.data_append, List.append_assoc]
    show (pyStrip _).data ++ ('\n' :: []) ++ ('\n' :: []) = _
    have hps : ∀ s : String, (pyStrip s).data = pyStripL s.data := fun _ => rfl
    rw [hps, hW, hstrip]
    simp [List.append_assoc]
  refine ⟨_, hgen, hSdata, ?_, ?_, ?_, ?_⟩
  · rw [hSdata, splitLines_append hL1, splitLines_append hL2, splitLines_append hL3]
    rfl
  · simp only [String.data_append, hd5]
    simp
  · simp only [String.data_append]
    intro h
    exact absurd (List.append_eq_nil.mp h).1 (by decide)
  · simp only [String.data_append]
    intro h
    exact absurd (List.append_eq_nil.mp h).1 (by decide)

/-- C9 counterexample: on the one-record dataset
`[("2021-07-06T00:00:00", 50, 59)]` the output has exactly *three*
non-blank lines (one header plus two content lines), not the four that
"exactly three content lines plus the header line" would require. -/
theorem claim_C9_counterexample :
    generate_daily_summary [("2021-07-06T00:00:00", 50, 59)] =
      some ("---- Tuesday 06 July 2021 ----\n" ++
        "  Minimum Temperature: 10.0°C\n" ++
        "  Maximum Temperature: 15.0°C\n\n") ∧
    ((splitLines ("---- Tuesday 06 July 2021 ----\n" ++
        "  Minimum Temperature: 10.0°C\n" ++
        "  Maximum Temperature: 15.0°C\n\n" : String).data).filter
      (fun l => !l.isEmpty)).length = 3 ∧
    ¬ ((splitLines ("---- Tuesday 06 July 2021 ----\n" ++
        "  Minimum Temperature: 10.0°C\n" ++
        "  Maximum Temperature: 15.0°C\n\n" : String).data).filter
      (fun l => !l.isEmpty)).length = 4 := by decide

/-- C9 witness: the amended statement instantiated on the record
`("2021-07-06T00:00:00", 50, 59)`. -/
theorem claim_C9_witness :
    ∃ S, generate_daily_summary [("2021-07-06T00:00:00", (50 : ℚ), (59 : ℚ))] = some S ∧
      S.data = ("---- " ++ "Tuesday 06 July 2021" ++ " ----").data ++ '\n' ::
        (("  Minimum Temperature: " ++ format_temperature (convert_f_to_c 50)).data ++ '\n' ::
          (("  Maximum Temperature: " ++ format_temperature (convert_f_to_c 59)).data ++
            ['\n', '\n'])) ∧
      splitLines S.data =
        [("---- " ++ "Tuesday 06 July 2021" ++ " ----").data,
         ("  Minimum Temperature: " ++ format_temperature (convert_f_to_c 50)).data,
         ("  Maximum Temperature: " ++ format_temperature (convert_f_to_c 59)).data,
         [], []] ∧
      ("---- " ++ "Tuesday 06 July 2021" ++ " ----").data ≠ [] ∧
      ("  Minimum Temperature: " ++ format_temperature (convert_f_to_c 50)).data ≠ [] ∧
      ("  Maximum Temperature: " ++ format_temperature (convert_f_to_c 59)).data ≠ [] :=
  claim_C9 "2021-07-06T00:00:00" 50 59 "Tuesday 06 July 2021" (by decide) (by decide)

/-- C10: `generate_daily_summary` of the empty dataset succeeds and
returns exactly the two-character string `"\n\n"`. -/
theorem claim_C10 :
    generate_daily_summary ([] : List (String × ℚ × ℚ)) = some "\n\n" ∧
    ("\n\n" : String).data.length = 2 := by decide

end Weather
